import Mathlib

set_option maxHeartbeats 1000000

namespace ETL

/-- Outcome of running an embedded Python computation: a normal return with a
value, a SystemExit carrying the process exit code (raised by sys.exit or the
exit builtin), or an ordinary Exception escaping. SystemExit is kept distinct
from Exception because a Python handler written as except Exception catches
the latter but not the former. -/
inductive POutcome (α : Type) where
  | ok : α → POutcome α
  | sysExit : Nat → POutcome α
  | err : POutcome α
deriving Repr, DecidableEq

/-- State-and-exception monad for the embedding: a computation transforms an
effect trace and yields a POutcome. Effects performed before an abnormal exit
stay recorded in the trace. -/
abbrev PyM (σ : Type) (α : Type) := σ → POutcome α × σ

instance : Monad (PyM σ) where
  pure := fun a => fun s => (POutcome.ok a, s)
  bind := fun m f => fun s =>
    match m s with
    | (POutcome.ok a, s1) => f a s1
    | (POutcome.sysExit c, s1) => (POutcome.sysExit c, s1)
    | (POutcome.err, s1) => (POutcome.err, s1)

/-- Embeds sys.exit(c) and the exit(c) builtin: raises SystemExit c. -/
def sysexit (c : Nat) : PyM σ α := fun s => (POutcome.sysExit c, s)

/-- Embeds raising an ordinary Python Exception. -/
def raiseErr : PyM σ α := fun s => (POutcome.err, s)

/-- Records an effect in the trace. -/
def modifyS (f : σ → σ) : PyM σ Unit := fun s => (POutcome.ok (), f s)

/-- Embeds a Python try/except Exception block: the handler runs on an
ordinary Exception but a SystemExit propagates past it unhandled. -/
def tryExcept (body handler : PyM σ α) : PyM σ α := fun s =>
  match body s with
  | (POutcome.err, s1) => handler s1
  | r => r

/-- Effect trace of one script run: which steps ran and which externally
visible mutations were performed. -/
structure Trace where
  transformRan : Bool
  uploadRan : Bool
  stagedObjects : List String
  loadJobsIssued : Nat
  clientsCreated : Nat
  verifyRan : Bool
  cleanupGcsRan : Bool
  cleanupLocalRan : Bool
  tempDirRemoved : Bool
  subprocsSpawned : Nat
deriving Repr, DecidableEq

/-- Trace at process start: nothing has run yet. -/
def Trace.init : Trace :=
  ⟨false, false, [], 0, 0, false, false, false, false, 0⟩

/-- Runs an embedded script top to bottom and maps the outcome to the process
exit status: 0 for a normal return of main, c for SystemExit c, and 1 for an
uncaught ordinary exception (CPython behaviour). -/
def runPy (m : PyM Trace Unit) : Nat × Trace :=
  match m Trace.init with
  | (POutcome.ok _, t) => (0, t)
  | (POutcome.sysExit c, t) => (c, t)
  | (POutcome.err, t) => (1, t)

/-- The warehouse load-job configuration record as built by
bigquery.LoadJobConfig in either script. Fields a script does not pass keep
the client library defaults: autodetect false, nullMarker none, compression
none, allowQuotedNewlines false, allowJaggedRows false, empty schema,
encoding none. -/
structure LoadJobConfig where
  sourceFormat : String
  fieldDelimiter : String
  skipLeadingRows : Nat
  writeDisposition : String
  nullMarker : Option String
  compression : Option String
  autodetect : Bool
  allowQuotedNewlines : Bool
  allowJaggedRows : Bool
  schemaFields : List (String × String)
  encoding : Option String
deriving Repr, DecidableEq

/-- Modelled from the spec: the warehouse load job is an external collaborator
(glossary entry Truncate-and-reload, a write mode that replaces the entire
table contents atomically from the warehouse perspective). Only the effect of
the write disposition on the destination table contents is modelled: staged
is the parsed row list of the staged input, prior the previous table
contents. -/
def applyLoadJob (cfg : LoadJobConfig) (staged prior : List String) : List String :=
  if cfg.writeDisposition = "WRITE_TRUNCATE" then staged
  else if cfg.writeDisposition = "WRITE_APPEND" then prior ++ staged
  else prior

/-- Argument type of cleanup_gcs: a single URI string or a list of URIs. -/
inductive PyStrOrList where
  | str : String → PyStrOrList
  | list : List String → PyStrOrList
deriving Repr, DecidableEq

/-- Bool test that s ends with the given suffix, computed on the character
list so concrete inputs evaluate by kernel reduction. -/
def strHasSuffix (s suff : String) : Bool :=
  Nat.ble suff.data.length s.data.length &&
    decide (s.data.drop (s.data.length - suff.data.length) = suff.data)

/-- Bool test that s starts with the given leading string, computed on the
character list. -/
def strStartsWith (s lead : String) : Bool :=
  decide (s.data.take lead.data.length = lead.data)

/-- Whether a concrete URI matches a single-star wildcard pattern written as
pre, then a star, then suff: some middle part completes it. This is the most
permissive reading of a storage wildcard (the star may match anything,
including slashes). -/
def matchesStar (pre suff s : String) : Bool :=
  strStartsWith s pre && strHasSuffix s suff &&
    Nat.ble (pre.data.length + suff.data.length) s.data.length

namespace SraAccessions

/-- Configuration constants of load_sra_accessions.py. -/
def PROJECT_ID : String := "curatedmetagenomicdata"

def DATASET_ID : String := "curatedmetagenomicsdata"

def TABLE_ID : String := "src_sra_accessions"

def GCS_BUCKET : String := "cmgd-data"

/-- Embeds the GCS_PATH_PREFIX constant of the script. -/
def GCS_PATH_STEM : String := "sra_metadata/chunks/SRA_Accessions"

/-- Python rsplit with separator slash and maxsplit 1, then index 0: the part
of s before the last slash, or all of s when no slash occurs. -/
def rsplitHead (s : String) : String :=
  if s.data.contains '/' then
    String.mk ((s.data.reverse.dropWhile (fun c => c ≠ '/')).drop 1).reverse
  else s

/-- The gcs_destination computed in upload_chunks_parallel. -/
def gcsDestinationDir : String :=
  "gs://" ++ GCS_BUCKET ++ "/" ++ rsplitHead GCS_PATH_STEM ++ "/"

/-- The wildcard_uri that upload_chunks_parallel returns. -/
def wildcardUri : String :=
  "gs://" ++ GCS_BUCKET ++ "/" ++ GCS_PATH_STEM ++ "_part*.tab.gz"

/-- The part of wildcardUri before its star. -/
def wildcardPre : String :=
  "gs://" ++ GCS_BUCKET ++ "/" ++ GCS_PATH_STEM ++ "_part"

/-- The part of wildcardUri after its star. -/
def wildcardSuf : String := ".tab.gz"

/-- Name the DuckDB COPY in ncbi_to_parquet gives output chunk i: the
FILENAME_PATTERN sra_accessions_ followed by the index, with the parquet
format extension. -/
def parquetChunkName (i : Nat) : String :=
  "sra_accessions_" ++ toString i ++ ".parquet"

/-- Embeds ncbi_to_parquet: runs the DuckDB COPY of the source into parquet
chunk files; on any exception it prints the error and calls sys.exit(1). The
oracle ok says whether the conversion succeeds. -/
def ncbi_to_parquet (ok : Bool) : PyM Trace Unit := do
  modifyS (fun t => { t with transformRan := true })
  if ok then pure () else sysexit 1

/-- Objects staged by the gcloud storage cp command of upload_chunks_parallel:
every local file matching the star-dot-parquet pattern in the chunks
directory lands under gcsDestinationDir with its base name. -/
def stagedUris (chunkFiles : List String) : List String :=
  (chunkFiles.filter (fun n => strHasSuffix n ".parquet")).map
    (fun n => gcsDestinationDir ++ n)

/-- Embeds upload_chunks_parallel: shells out to gcloud storage cp with the
parquet wildcard; on CalledProcessError it calls sys.exit(1); on success it
returns wildcardUri. chunkFiles is the listing of the chunks directory. -/
def upload_chunks_parallel (ok : Bool) (chunkFiles : List String) :
    PyM Trace String := do
  modifyS (fun t =>
    { t with uploadRan := true, subprocsSpawned := t.subprocsSpawned + 1 })
  if ok then do
    modifyS (fun t => { t with stagedObjects := stagedUris chunkFiles })
    pure wildcardUri
  else sysexit 1

/-- The bigquery.LoadJobConfig built in load_to_bigquery of the remote
loader. -/
def sraJobConfig : LoadJobConfig :=
  { sourceFormat := "CSV"
    fieldDelimiter := "\t"
    skipLeadingRows := 1
    writeDisposition := "WRITE_TRUNCATE"
    nullMarker := some "-"
    compression := some "GZIP"
    autodetect := true
    allowQuotedNewlines := true
    allowJaggedRows := false
    schemaFields := []
    encoding := none }

/-- Embeds load_to_bigquery of the remote loader: creates a client, issues
one load job from the wildcard URI, waits; on failure prints any job errors
and calls sys.exit(1). -/
def load_to_bigquery (ok : Bool) : PyM Trace Unit := do
  modifyS (fun t => { t with clientsCreated := t.clientsCreated + 1 })
  modifyS (fun t => { t with loadJobsIssued := t.loadJobsIssued + 1 })
  if ok then pure () else sysexit 1

/-- Embeds verify_table of the remote loader: runs verification queries in a
try block whose except Exception handler only prints, so the function
returns normally whether or not the queries succeed. -/
def verify_table (ok : Bool) : PyM Trace Unit :=
  tryExcept
    (do
      modifyS (fun t => { t with verifyRan := true })
      if ok then pure () else raiseErr)
    (pure ())

/-- Embeds the isinstance normalisation at the top of cleanup_gcs: a plain
string argument becomes a one-element list. -/
def coerceUris : PyStrOrList → List String
  | PyStrOrList.str s => [s]
  | PyStrOrList.list l => l

/-- Embeds cleanup_gcs: with keep_file true it only prints the kept URIs;
otherwise it shells out to gcloud storage rm inside a try block whose
handlers for CalledProcessError and Exception only print, so the function
returns normally in every case. deleteOk says whether the delete subprocess
succeeds. -/
def cleanup_gcs (gcsUris : PyStrOrList) (keepFile deleteOk : Bool) :
    PyM Trace Unit := do
  modifyS (fun t => { t with cleanupGcsRan := true })
  let uris := coerceUris gcsUris
  if keepFile then
    pure ()
  else
    tryExcept
      (if uris.length > 0 then do
        modifyS (fun t => { t with subprocsSpawned := t.subprocsSpawned + 1 })
        if deleteOk then pure () else raiseErr
      else pure ())
      (pure ())

/-- Embeds cleanup_local_files: shutil.rmtree of the temp directory inside a
try block whose except Exception handler only prints, so the function returns
normally whether or not the removal succeeds. -/
def cleanup_local_files (rmtreeOk : Bool) : PyM Trace Unit := do
  modifyS (fun t => { t with cleanupLocalRan := true })
  tryExcept
    (do
      if rmtreeOk then modifyS (fun t => { t with tempDirRemoved := true })
      else raiseErr)
    (pure ())

/-- Oracle environment for one run of the remote loader: success of each
external operation plus the listing of the local chunks directory after the
transform. -/
structure SraEnv where
  transformOk : Bool
  chunkFiles : List String
  uploadOk : Bool
  loadOk : Bool
  verifyOk : Bool
  gcsDeleteOk : Bool
  rmtreeOk : Bool
deriving Repr, DecidableEq

/-- Embeds main of load_sra_accessions.py: mkdtemp, then a try block running
step 0 (transform), an unconditional exit(2), and then the upload, load,
verify and cleanup steps; the except Exception handler prints, has its
cleanup_local_files call commented out, and ends in sys.exit(1). SystemExit
raised inside the try block propagates past the handler. -/
def main (env : SraEnv) : PyM Trace Unit :=
  tryExcept
    (do
      ncbi_to_parquet env.transformOk
      (sysexit 2 : PyM Trace Unit)
      let wildcard ← upload_chunks_parallel env.uploadOk env.chunkFiles
      load_to_bigquery env.loadOk
      verify_table env.verifyOk
      cleanup_gcs (PyStrOrList.str wildcard) true env.gcsDeleteOk
      cleanup_local_files env.rmtreeOk)
    (sysexit 1)

end SraAccessions

/-- Exit status and trace of one full process run of the remote loader. -/
def sraRun (env : SraAccessions.SraEnv) : Nat × Trace :=
  runPy (SraAccessions.main env)

namespace SampleIdMap

/-- Configuration constants of load_sample_id_map_to_bigquery.py. -/
def PROJECT_ID : String := "curatedmetagenomicdata"

def DATASET_ID : String := "curatedmetagenomicsdata"

def TABLE_ID : String := "src_sample_id_map"

/-- Oracle environment for one run of the local-file loader: whether the
source CSV exists, whether the load job succeeds, whether surfacing the job
error detail in the failure path itself succeeds, and whether the
verification queries succeed. -/
structure SidEnv where
  csvExists : Bool
  loadJobOk : Bool
  surfaceOk : Bool
  verifyOk : Bool
deriving Repr, DecidableEq

/-- The explicit schema passed to the load job of the local loader. -/
def sidSchema : List (String × String) :=
  [("sample_id", "STRING"), ("run_ids", "STRING"),
   ("sample_name", "STRING"), ("study_name", "STRING")]

/-- The bigquery.LoadJobConfig built in load_to_bigquery of the local loader:
it passes no null_marker and no compression argument, so those fields keep
the client defaults. -/
def sidJobConfig : LoadJobConfig :=
  { sourceFormat := "CSV"
    fieldDelimiter := ","
    skipLeadingRows := 1
    writeDisposition := "WRITE_TRUNCATE"
    nullMarker := none
    compression := none
    autodetect := false
    allowQuotedNewlines := true
    allowJaggedRows := false
    schemaFields := sidSchema
    encoding := some "UTF-8" }

/-- Embeds load_to_bigquery of the local loader: if the CSV is missing it
prints and calls sys.exit(1) before any client is created; otherwise it
creates the client, opens the file (existence was just checked), issues one
load job and waits; on failure it tries to surface job-level error detail
inside an inner try whose except Exception handler is pass, then calls
sys.exit(1). -/
def load_to_bigquery (env : SidEnv) : PyM Trace Unit := do
  if env.csvExists then do
    modifyS (fun t => { t with clientsCreated := t.clientsCreated + 1 })
    modifyS (fun t => { t with loadJobsIssued := t.loadJobsIssued + 1 })
    if env.loadJobOk then pure ()
    else do
      tryExcept (if env.surfaceOk then pure () else raiseErr) (pure ())
      (sysexit 1 : PyM Trace Unit)
  else sysexit 1

/-- Embeds verify_table of the local loader: verification queries in a try
block whose except Exception handler only prints, so the function returns
normally whether or not the queries succeed. -/
def verify_table (ok : Bool) : PyM Trace Unit :=
  tryExcept
    (do
      modifyS (fun t => { t with verifyRan := true })
      if ok then pure () else raiseErr)
    (pure ())

/-- Embeds main of load_sample_id_map_to_bigquery.py: step 1 load, step 2
verify, then the closing prints and a normal return. -/
def main (env : SidEnv) : PyM Trace Unit := do
  load_to_bigquery env
  verify_table env.verifyOk

end SampleIdMap

/-- Exit status and trace of one full process run of the local-file loader. -/
def sidRun (env : SampleIdMap.SidEnv) : Nat × Trace :=
  runPy (SampleIdMap.main env)

/-- Helper for the wildcard analysis: a string whose character list ends in
the eight characters of the parquet extension cannot, even after prepending
any string, end in the seven characters of the tab-gz extension, because the
last seven characters would have to be both the tail of the parquet extension
and the tab-gz extension, which differ. -/
theorem hasSuffix_parquet_not_tabgz (d s : String)
    (h : strHasSuffix s ".parquet" = true) :
    strHasSuffix (d ++ s) ".tab.gz" = false := by
  unfold strHasSuffix at h ⊢
  rw [Bool.and_eq_true, decide_eq_true_eq] at h
  obtain ⟨h1, h2⟩ := h
  have h8 : (".parquet" : String).data.length = 8 := by decide
  have hlen : 8 ≤ s.data.length := by
    have hle := Nat.le_of_ble_eq_true h1
    rw [h8] at hle
    exact hle
  rw [h8] at h2
  have h7 : (".tab.gz" : String).data.length = 7 := by decide
  rw [String.data_append, h7, List.length_append]
  have key : (d.data ++ s.data).drop (d.data.length + s.data.length - 7)
      = "parquet".data := by
    have e1 : d.data.length + s.data.length - 7
        = d.data.length + (s.data.length - 8) + 1 := by omega
    rw [e1, ← List.drop_drop, List.drop_append, h2]
    decide
  rw [key]
  have hne : ("parquet" : String).data ≠ (".tab.gz" : String).data := by decide
  rw [decide_eq_false hne]
  simp

/-- General form of the staging mismatch: whatever the chunks directory
contains, no object staged by upload_chunks_parallel matches the wildcard
pattern the function returns, since every staged object keeps its parquet
base name while the pattern requires the tab-gz extension. -/
theorem staged_uris_never_match (chunkFiles : List String) :
    ∀ u ∈ SraAccessions.stagedUris chunkFiles,
      matchesStar SraAccessions.wildcardPre SraAccessions.wildcardSuf u = false := by
  intro u hu
  unfold SraAccessions.stagedUris at hu
  rw [List.mem_map] at hu
  obtain ⟨n, hn, rfl⟩ := hu
  rw [List.mem_filter] at hn
  have hsuf : strHasSuffix n ".parquet" = true := hn.2
  unfold matchesStar SraAccessions.wildcardSuf
  rw [hasSuffix_parquet_not_tabgz _ _ hsuf]
  simp

/-- Claim C1: every run of either loader that completes all pipeline steps
successfully exits with status zero (for the local loader: CSV present and
load job succeeds; for the remote loader this is vacuous since no run gets
past the early exit); every run in which a fatal step fails exits with a
non-zero status; and the success or failure of the verify step never changes
the exit status of either loader. -/
theorem c1_exit_status :
    (∀ env : SampleIdMap.SidEnv,
      env.csvExists = true → env.loadJobOk = true → (sidRun env).1 = 0)
    ∧ (∀ env : SampleIdMap.SidEnv,
      env.csvExists = false ∨ env.loadJobOk = false → (sidRun env).1 ≠ 0)
    ∧ (∀ env : SraAccessions.SraEnv,
      env.transformOk = false → (sraRun env).1 ≠ 0)
    ∧ (∀ (env : SampleIdMap.SidEnv) (b : Bool),
      (sidRun { env with verifyOk := b }).1 = (sidRun env).1)
    ∧ (∀ (env : SraAccessions.SraEnv) (b : Bool),
      (sraRun { env with verifyOk := b }).1 = (sraRun env).1) := by
  refine ⟨?_, ?_, ?_, ?_, ?_⟩
  · intro env
    obtain ⟨a, b, c, d⟩ := env
    cases a <;> cases b <;> cases c <;> cases d <;> decide
  · intro env
    obtain ⟨a, b, c, d⟩ := env
    cases a <;> cases b <;> cases c <;> cases d <;> decide
  · intro env h
    obtain ⟨tOk, files, uOk, lOk, vOk, gOk, rOk⟩ := env
    subst h
    exact fun hc => Nat.one_ne_zero hc
  · intro env b
    obtain ⟨a, b1, c, d⟩ := env
    cases a <;> cases b1 <;> cases c <;> cases d <;> cases b <;> rfl
  · intro env b
    obtain ⟨tOk, files, uOk, lOk, vOk, gOk, rOk⟩ := env
    cases tOk <;> rfl

/-- Witness for c1_exit_status at concrete environments: a fully successful
local run (with failing verification) exits 0, a local run with a missing CSV
exits non-zero, and a remote run with a failing transform exits non-zero. -/
theorem c1_exit_status_witness :
    (sidRun ⟨true, true, true, false⟩).1 = 0
    ∧ (sidRun ⟨false, true, true, true⟩).1 ≠ 0
    ∧ (sraRun ⟨false, [], true, true, true, true, true⟩).1 ≠ 0 :=
  ⟨c1_exit_status.1 ⟨true, true, true, false⟩ rfl rfl,
   c1_exit_status.2.1 ⟨false, true, true, true⟩ (Or.inl rfl),
   c1_exit_status.2.2.1 ⟨false, [], true, true, true, true, true⟩ rfl⟩

/-- Claim C2: in the remote bulk loader every run that completes the
transform step hits the unconditional exit with status 2 before the upload
step, and on no run whatsoever do the upload, load, verify or cleanup steps
after it in main execute. -/
theorem c2_unreachable_after_exit2 :
    ∀ env : SraAccessions.SraEnv,
      (sraRun env).2.uploadRan = false
      ∧ (sraRun env).2.loadJobsIssued = 0
      ∧ (sraRun env).2.verifyRan = false
      ∧ (sraRun env).2.cleanupGcsRan = false
      ∧ (sraRun env).2.cleanupLocalRan = false
      ∧ (env.transformOk = true → (sraRun env).1 = 2) := by
  intro env
  obtain ⟨tOk, files, uOk, lOk, vOk, gOk, rOk⟩ := env
  cases tOk
  · exact ⟨rfl, rfl, rfl, rfl, rfl, fun h => Bool.noConfusion h⟩
  · exact ⟨rfl, rfl, rfl, rfl, rfl, fun _ => rfl⟩

/-- Witness for c2_unreachable_after_exit2: the run whose transform succeeds
exits with status 2. -/
theorem c2_unreachable_after_exit2_witness :
    (sraRun ⟨true, [], true, true, true, true, true⟩).1 = 2 :=
  (c2_unreachable_after_exit2 ⟨true, [], true, true, true, true, true⟩).2.2.2.2.2 rfl

/-- Claim C3 counterexample: in the concrete run whose transform step fails,
the process exits with status 1 yet cleanup_local_files never ran and the
temporary directory was not removed, refuting the claim that the directory is
always removed before the process terminates. -/
theorem c3_counterexample :
    (sraRun ⟨false, [], true, true, true, true, true⟩).1 = 1
    ∧ (sraRun ⟨false, [], true, true, true, true, true⟩).2.tempDirRemoved = false
    ∧ (sraRun ⟨false, [], true, true, true, true, true⟩).2.cleanupLocalRan = false :=
  ⟨rfl, rfl, rfl⟩

/-- Claim C3 amended: no run of the remote bulk loader ever removes the local
temporary directory, and every run terminates with a non-zero status: a step
failure exits the process with status 1 directly from inside the step
(bypassing the top-level except handler, whose own cleanup call is commented
out), and a successful transform exits with status 2 before any cleanup
step. -/
theorem c3_amended_no_local_cleanup :
    ∀ env : SraAccessions.SraEnv,
      (sraRun env).2.tempDirRemoved = false
      ∧ (sraRun env).2.cleanupLocalRan = false
      ∧ (sraRun env).1 ≠ 0 := by
  intro env
  obtain ⟨tOk, files, uOk, lOk, vOk, gOk, rOk⟩ := env
  cases tOk
  · exact ⟨rfl, rfl, fun hc => Nat.one_ne_zero hc⟩
  · exact ⟨rfl, rfl, fun hc => Nat.succ_ne_zero 1 hc⟩

/-- Witness for c3_amended_no_local_cleanup at a concrete environment. -/
theorem c3_amended_no_local_cleanup_witness :
    (sraRun ⟨true, [], true, true, true, true, true⟩).2.tempDirRemoved = false
    ∧ (sraRun ⟨true, [], true, true, true, true, true⟩).2.cleanupLocalRan = false
    ∧ (sraRun ⟨true, [], true, true, true, true, true⟩).1 ≠ 0 :=
  c3_amended_no_local_cleanup ⟨true, [], true, true, true, true, true⟩

/-- Claim C4: when the source CSV does not exist, the local-file loader exits
with status 1 before any warehouse client is created and before any load job
is issued, so no warehouse mutation occurs. -/
theorem c4_missing_csv_no_mutation :
    ∀ env : SampleIdMap.SidEnv, env.csvExists = false →
      (sidRun env).1 = 1
      ∧ (sidRun env).2.clientsCreated = 0
      ∧ (sidRun env).2.loadJobsIssued = 0 := by
  intro env h
  obtain ⟨a, b, c, d⟩ := env
  subst h
  exact ⟨rfl, rfl, rfl⟩

/-- Witness for c4_missing_csv_no_mutation at a concrete environment. -/
theorem c4_missing_csv_no_mutation_witness :
    (sidRun ⟨false, true, true, true⟩).1 = 1
    ∧ (sidRun ⟨false, true, true, true⟩).2.clientsCreated = 0
    ∧ (sidRun ⟨false, true, true, true⟩).2.loadJobsIssued = 0 :=
  c4_missing_csv_no_mutation ⟨false, true, true, true⟩ rfl

/-- Claim C5 counterexample: the load-job configuration of the local loader
sets neither a null marker nor a compression codec, refuting the claim that
every load job is configured with both. -/
theorem c5_counterexample :
    SampleIdMap.sidJobConfig.nullMarker = none
    ∧ SampleIdMap.sidJobConfig.compression = none := ⟨rfl, rfl⟩

/-- Claim C5 amended: every run of the local loader that reaches the load
step issues exactly one load job, configured with CSV source format, comma
delimiter, one skipped leading header row, WRITE_TRUNCATE and an explicit
schema but no null marker and no compression codec; the remote loader
configuration (its load step being unreachable) sets CSV source format, tab
delimiter, one skipped leading header row, WRITE_TRUNCATE, the dash null
marker and the GZIP compression codec. -/
theorem c5_amended_load_job_config :
    (∀ env : SampleIdMap.SidEnv, env.csvExists = true →
      (sidRun env).2.loadJobsIssued = 1)
    ∧ SampleIdMap.sidJobConfig.sourceFormat = "CSV"
    ∧ SampleIdMap.sidJobConfig.fieldDelimiter = ","
    ∧ SampleIdMap.sidJobConfig.skipLeadingRows = 1
    ∧ SampleIdMap.sidJobConfig.writeDisposition = "WRITE_TRUNCATE"
    ∧ SampleIdMap.sidJobConfig.nullMarker = none
    ∧ SampleIdMap.sidJobConfig.compression = none
    ∧ SampleIdMap.sidJobConfig.schemaFields = SampleIdMap.sidSchema
    ∧ SraAccessions.sraJobConfig.sourceFormat = "CSV"
    ∧ SraAccessions.sraJobConfig.fieldDelimiter = "\t"
    ∧ SraAccessions.sraJobConfig.skipLeadingRows = 1
    ∧ SraAccessions.sraJobConfig.writeDisposition = "WRITE_TRUNCATE"
    ∧ SraAccessions.sraJobConfig.nullMarker = some "-"
    ∧ SraAccessions.sraJobConfig.compression = some "GZIP" := by
  refine ⟨?_, rfl, rfl, rfl, rfl, rfl, rfl, rfl, rfl, rfl, rfl, rfl, rfl, rfl⟩
  intro env h
  obtain ⟨a, b, c, d⟩ := env
  subst h
  cases b <;> cases c <;> cases d <;> rfl

/-- Witness for c5_amended_load_job_config: a run with the CSV present issues
exactly one load job. -/
theorem c5_amended_load_job_config_witness :
    (sidRun ⟨true, true, true, true⟩).2.loadJobsIssued = 1 :=
  c5_amended_load_job_config.1 ⟨true, true, true, true⟩ rfl

/-- Claim C6 evaluated at the failing input: when the chunks directory holds
the first transform output file, the upload stages exactly one parquet object
under the chunks path, while the wildcard pattern the function returns
requires a different base name and the tab-gz extension, so the pattern does
not match the staged object. -/
theorem c6_wildcard_does_not_match_staged :
    SraAccessions.stagedUris [SraAccessions.parquetChunkName 0]
      = ["gs://cmgd-data/sra_metadata/chunks/sra_accessions_0.parquet"]
    ∧ SraAccessions.wildcardUri
      = SraAccessions.wildcardPre ++ "*" ++ SraAccessions.wildcardSuf
    ∧ matchesStar SraAccessions.wildcardPre SraAccessions.wildcardSuf
        "gs://cmgd-data/sra_metadata/chunks/sra_accessions_0.parquet" = false := by
  exact ⟨by decide, by decide, by decide⟩

/-- Claim C7: with the WRITE_TRUNCATE write disposition carried by the
configurations of both loaders, running the load job a second time against
the same staged rows leaves the destination table in the same state as
running it once, whatever the prior table contents. -/
theorem c7_truncate_idempotent :
    ∀ staged prior : List String,
      applyLoadJob SampleIdMap.sidJobConfig staged
          (applyLoadJob SampleIdMap.sidJobConfig staged prior)
        = applyLoadJob SampleIdMap.sidJobConfig staged prior
      ∧ applyLoadJob SraAccessions.sraJobConfig staged
          (applyLoadJob SraAccessions.sraJobConfig staged prior)
        = applyLoadJob SraAccessions.sraJobConfig staged prior := by
  intro staged prior
  constructor <;> rfl

/-- Claim C8: for every argument and whether or not the underlying delete
operation fails, cleanup_gcs and cleanup_local_files catch the failure and
return normally, never raising and never exiting the process. -/
theorem c8_cleanup_never_raises :
    (∀ (uris : PyStrOrList) (keepFile deleteOk : Bool) (t : Trace),
      (SraAccessions.cleanup_gcs uris keepFile deleteOk t).1 = POutcome.ok ())
    ∧ (∀ (rmtreeOk : Bool) (t : Trace),
      (SraAccessions.cleanup_local_files rmtreeOk t).1 = POutcome.ok ()) := by
  constructor
  · intro uris kf dOk t
    rcases uris with s | l
    · cases kf <;> cases dOk <;> rfl
    · cases kf
      · cases l with
        | nil => cases dOk <;> rfl
        | cons x xs =>
          cases dOk <;>
            simp [SraAccessions.cleanup_gcs, SraAccessions.coerceUris, tryExcept, modifyS,
              raiseErr, bind, Monad.toBind, instMonadPyM, pure, Nat.succ_pos]
      · rfl
  · intro rmtreeOk t
    cases rmtreeOk <;> rfl

/-- Claim C9: cleanup_gcs called with keep_file true spawns no subprocess and
returns normally for every argument, and a plain string URI is normalised to
the one-element list holding exactly that string, so the reported count is
one. -/
theorem c9_keepfile_no_subprocess :
    (∀ (uris : PyStrOrList) (deleteOk : Bool) (t : Trace),
      (SraAccessions.cleanup_gcs uris true deleteOk t).1 = POutcome.ok ()
      ∧ (SraAccessions.cleanup_gcs uris true deleteOk t).2.subprocsSpawned
          = t.subprocsSpawned)
    ∧ (∀ u : String,
      SraAccessions.coerceUris (PyStrOrList.str u) = [u]
      ∧ (SraAccessions.coerceUris (PyStrOrList.str u)).length = 1) := by
  constructor
  · intro uris dOk t
    rcases uris with s | l <;> exact ⟨rfl, rfl⟩
  · intro u
    exact ⟨rfl, rfl⟩

/-- Claim C10: in the load failure path of the local loader, a failure while
surfacing job-level error detail is itself caught and suppressed by the inner
handler, so the process exits with status 1 for every such run, whether or
not the surfacing succeeds. -/
theorem c10_surfacing_failure_suppressed :
    ∀ env : SampleIdMap.SidEnv,
      env.csvExists = true → env.loadJobOk = false → (sidRun env).1 = 1 := by
  intro env h1 h2
  obtain ⟨a, b, c, d⟩ := env
  subst h1
  subst h2
  cases c <;> cases d <;> rfl

/-- Witness for c10_surfacing_failure_suppressed at the run where the
surfacing of job errors itself fails. -/
theorem c10_surfacing_failure_suppressed_witness :
    (sidRun ⟨true, false, false, true⟩).1 = 1 :=
  c10_surfacing_failure_suppressed ⟨true, false, false, true⟩ rfl rfl

end ETL
